import Mathlib

/-!
Shallow embedding of `src/notebooks/grn.py` (grnlearn tutorial helpers) and
verification of its specification claims.

Dataframes are modelled in two ways, both finite and fully executable:
* `DF α` — a row-oriented frame (column labels plus a list of rows), used for
  the gene-filtering and GO-enrichment functions, which the source drives
  row-wise / column-lookup-wise;
* `PDF α` — a column-oriented frame (named, dtyped columns of optional
  values, `none` standing for NaN), used for the column-statistics utilities
  (`get_df_missing_columns`, `find_constant_features`, `duplicate_columns`,
  `one_hot_df`), which the source drives column-wise.

Python floats are modelled as `Rat` (exact arithmetic; the numeric claims
settled here are structural, not rounding-sensitive).  Functions that print
return their printed messages as an explicit list of strings; functions that
can raise return `Except String`.  `np.empty` (an uninitialized buffer) is
modelled by an explicit `garbage` parameter giving the buffer contents.
-/

set_option linter.unusedVariables false

/-- Structural first-occurrence deduplication, accumulator of already seen
elements.  Models `pandas.DataFrame.drop_duplicates` / `Series.unique`
(keep the first occurrence, preserve order). -/
def dropDupsAux {α : Type} [DecidableEq α] : List α → List α → List α
  | [], _seen => []
  | x :: xs, seen =>
      if x ∈ seen then dropDupsAux xs seen else x :: dropDupsAux xs (x :: seen)

/-- First-occurrence deduplication of a list. -/
def dropDuplicates {α : Type} [DecidableEq α] (l : List α) : List α :=
  dropDupsAux l []





/- ----------------------------------------------------------------
Row-oriented dataframe model.
---------------------------------------------------------------- -/

/-- A row-oriented dataframe: column labels and rows of cells. -/
structure DF (α : Type) where
  cols : List String
  rows : List (List α)
deriving DecidableEq

/-- Cell of row `r` at the named column (pandas label lookup
`row[c]`).  A missing column label raises `KeyError` in pandas; every claim
below only looks up labels that are present. -/
def getCell {α : Type} [Inhabited α] (df : DF α) (c : String) (r : List α) : α :=
  r.getD (df.cols.indexOf c) default

/-- The values of the named column, in row order (`df[c].values`). -/
def getColumn {α : Type} [Inhabited α] (df : DF α) (c : String) : List α :=
  df.rows.map (getCell df c)

/-- `get_gene_data(data, gene_name_column, test_gene_list)`
(src/notebooks/grn.py:111-137): start from an empty frame, loop over the
values of the gene-name column, and for each value that is in the test gene
list concatenate all rows carrying that value; finally
`gene_profiles.drop_duplicates(inplace=True)` — in place on the *local*
frame `gene_profiles`, not on the argument.  A concat that never fired
leaves the initial empty `pd.DataFrame()` (no columns). -/
def get_gene_data {α : Type} [DecidableEq α] [Inhabited α]
    (data : DF α) (gene_name_column : String) (test_gene_list : List α) : DF α :=
  let gene_profiles : List (List α) :=
    (getColumn data gene_name_column).foldl
      (fun acc gene =>
        if gene ∈ test_gene_list then
          acc ++ data.rows.filter (fun r => getCell data gene_name_column r == gene)
        else acc) []
  let gene_profiles := dropDuplicates gene_profiles
  ⟨if gene_profiles.isEmpty then [] else data.cols, gene_profiles⟩

/-- `test_missing_data(df, fname)` (src/notebooks/grn.py:252-256):
`assert np.all(df.notnull()), fname + ' contains missing data'`.
Cells are `Option α`, `none` standing for a missing entry; an
`AssertionError` is an `Except.error` carrying the assertion message. -/
def test_missing_data {α : Type} (df : DF (Option α)) (fname : String) :
    Except String Unit :=
  if df.rows.all (fun r => r.all (fun x => x.isSome)) then Except.ok ()
  else Except.error (fname ++ " contains missing data")

/- ----------------------------------------------------------------
GO enrichment pipeline (src/notebooks/grn.py:485-652).
---------------------------------------------------------------- -/

/-- Stable descending insertion by count (helper for `value_counts`). -/
def insertByCount (p : String × Nat) : List (String × Nat) → List (String × Nat)
  | [] => [p]
  | q :: qs => if q.2 < p.2 then p :: q :: qs else q :: insertByCount p qs

/-- Stable insertion sort, descending by count (helper for `value_counts`). -/
def sortByCountDesc : List (String × Nat) → List (String × Nat)
  | [] => []
  | p :: ps => insertByCount p (sortByCountDesc ps)

/-- `pandas.Series.value_counts()`: occurrence count of each distinct value,
sorted descending by count (ties in first-appearance order). -/
def value_counts (vals : List String) : List (String × Nat) :=
  sortByCountDesc ((dropDuplicates vals).map (fun v => (v, vals.count v)))




/-- `lower_strings(string_list)` (src/notebooks/grn.py:485-489). -/
def lower_strings (string_list : List String) : List String :=
  string_list.map (fun x => x.toLower)

/-- `load_gene_ontology_data()` (src/notebooks/grn.py:492-498): reads
`../data/GO_annotations_ecoli.csv`.  The on-disk state is an explicit
parameter `disk` mapping a path to the frame its CSV parses to. -/
def load_gene_ontology_data (disk : String → DF String) : DF String :=
  disk "../data/GO_annotations_ecoli.csv"

/-- Column assignment `df.c = vals` (aligned positionally). -/
def set_column (df : DF String) (c : String) (vals : List String) : DF String :=
  ⟨df.cols, (df.rows.zip vals).map (fun rv => rv.1.set (df.cols.indexOf c) rv.2)⟩

/-- `get_GO_gene_set(gene_ontology_data, test_gene_list)`
(src/notebooks/grn.py:500-525): the first statement of the body
*reassigns* `gene_ontology_data = load_gene_ontology_data()`, so the
argument frame is never read; then the `gene_name` column is lowercased and
`get_gene_data` filters on it. -/
def get_GO_gene_set (disk : String → DF String)
    (gene_ontology_data : DF String) (test_gene_list : List String) : DF String :=
  let gene_ontology_data := load_gene_ontology_data disk
  let gene_ontology_data :=
    set_column gene_ontology_data "gene_name"
      (lower_strings (getColumn gene_ontology_data "gene_name"))
  get_gene_data gene_ontology_data "gene_name" test_gene_list

/-- `get_hi_GOs(GO_gene_set)` (src/notebooks/grn.py:527-565).
`thr = int(GO_gene_set.shape[0] * 0.10)` — for any frame size whose product
with the IEEE double `0.10` truncates as the exact product does (all sizes
below 2^49), this is exactly floor division by 10.  Returns the GO IDs whose
`value_counts` entry exceeds `thr` when the frame has more than one row and
at least one ID is above threshold; otherwise prints
`No enriched functions found.` and returns `None`.  The printed messages are
the second component. -/
def get_hi_GOs (GO_gene_set : DF String) : Option (List String) × List String :=
  let thr := GO_gene_set.rows.length / 10
  if GO_gene_set.rows.length > 1 then
    let vc := value_counts (getColumn GO_gene_set "GO_ID")
    let hi_GO_ids := (vc.filter (fun p => p.2 > thr)).map Prod.fst
    if hi_GO_ids.length > 0 then (some hi_GO_ids, [])
    else (none, ["No enriched functions found."])
  else (none, ["No enriched functions found."])

/-- The hypergeometric probability mass function
`scipy.stats.hypergeom.pmf(k, M, n, N)` (population `M`, successes `n`,
draws `N`), in exact rational arithmetic. -/
def hypergeom_pmf (M n N k : Nat) : Rat :=
  ((n.choose k * (M - n).choose (N - k) : Nat) : Rat) / ((M.choose N : Nat) : Rat)

/-- The upper-tail p-value the spec describes for the enrichment test: the
sum of hypergeometric PMF values over draw counts `k` from `w` to `N`
(population `M`, successes `n`, sample size `N`).  This is also what the
source's own comments say `get_hyper_test_p_value` computes
(`#P-value = PMFs >= w`, src/notebooks/grn.py:609-614). -/
def hypergeom_upper_tail (M n N w : Nat) : Rat :=
  ((List.range' w (N - w + 1)).map (hypergeom_pmf M n N)).sum

/-- The p-values `get_hyper_test_p_value` actually stores
(src/notebooks/grn.py:586-617), one per entry of `hi_GO_ids`.
`hypergeom_pmfs = np.empty(n - w + 1)` allocates an *uninitialized* buffer,
modelled by `garbage i j` = contents of slot `j` of the buffer allocated on
loop iteration `i`; the real PMF array is computed into `pmfs` (line 611)
and never used, and `p_val = hypergeom_pmfs.sum()` sums the buffer. -/
def code_p_vals (garbage : Nat → Nat → Rat)
    (gene_ontology_data GO_gene_set : DF String) (hi_GO_ids : List String) :
    List Rat :=
  let n := GO_gene_set.rows.length
  let M := gene_ontology_data.rows.length
  hi_GO_ids.enum.map (fun ig =>
    let i := ig.1
    let hi_GO := ig.2
    let w := (getColumn GO_gene_set "GO_ID").count hi_GO
    let b := GO_gene_set.rows.length - w
    let w_genome := (getColumn gene_ontology_data "GO_ID").count hi_GO
    let b_genome := gene_ontology_data.rows.length - w_genome
    let hypergeom_pmfs := (List.range (n - w + 1)).map (garbage i)
    let pmfs := (List.range' w (n - w + 1)).map (hypergeom_pmf M w_genome n)
    let p_val := hypergeom_pmfs.sum
    p_val)

/-- The significance cut (src/notebooks/grn.py:619-623): keep the
`(GO ID, p-value)` pairs whose p-value is strictly below `0.05`; no
multiple-comparison correction. -/
def significance_cut (hi_GO_ids : List String) (p_vals : List Rat) :
    List (String × Rat) :=
  (hi_GO_ids.zip p_vals).filter (fun gp => gp.2 < (0.05 : Rat))

/-- `pd.merge(GO_summary_df, GO_gene_set, on='GO_ID', how='inner')`
(src/notebooks/grn.py:625-628): for each summary row in order, every
gene-set row with the same `GO_ID` (the matched gene-set row is kept whole
as the third component). -/
def inner_merge (GO_summary : List (String × Rat)) (GO_gene_set : DF String) :
    List (String × Rat × List String) :=
  GO_summary.flatMap (fun gp =>
    (GO_gene_set.rows.filter (fun r => getCell GO_gene_set "GO_ID" r == gp.1)).map
      (fun r => (gp.1, gp.2, r)))

/-- `get_hyper_test_p_value(gene_ontology_data, GO_gene_set, hi_GO_ids)`
(src/notebooks/grn.py:567-636).  First component: the returned summary
(`None` when the test does not run); second component: the printed
messages. -/
def get_hyper_test_p_value (garbage : Nat → Nat → Rat)
    (gene_ontology_data GO_gene_set : DF String)
    (hi_GO_ids : Option (List String)) :
    Option (List (String × Rat × List String)) × List String :=
  match hi_GO_ids with
  | some ids =>
      if ids.length > 0 then
        let p_vals := code_p_vals garbage gene_ontology_data GO_gene_set ids
        let sig := significance_cut ids p_vals
        let summary_df := inner_merge sig GO_gene_set
        (some summary_df, ["Enrichment test ran succesfully!"])
      else (none, ["Enrichment test did not run."])
  | none => (none, ["Enrichment test did not run."])

/-- Concrete two-row GO annotation frame used as failing input / witness
input: columns `gene_name`, `GO_ID`; both rows annotated `GO:1`. -/
def exGod : DF String :=
  ⟨["gene_name", "GO_ID"], [["a", "GO:1"], ["b", "GO:1"]]⟩

/-- Concrete one-row frame (for the no-enrichment branch). -/
def exOneRow : DF String :=
  ⟨["gene_name", "GO_ID"], [["a", "GO:1"]]⟩

/- ----------------------------------------------------------------
Column-oriented dataframe model and the column-statistics utilities
(src/notebooks/grn.py:152-317).
---------------------------------------------------------------- -/

/-- A named, dtyped column of optional cells (`none` = NaN). -/
structure PCol (α : Type) where
  name : String
  dtype : String
  values : List (Option α)
deriving DecidableEq

/-- A column-oriented dataframe. -/
structure PDF (α : Type) where
  cols : List (PCol α)
deriving DecidableEq

/-- `len(df)`: the number of rows (pandas keeps all columns the same
length; the first column's length when present, `0` for a frame with no
columns). -/
def nrows {α : Type} (df : PDF α) : Nat :=
  match df.cols with
  | [] => 0
  | c :: _ => c.values.length

/-- Ascending insertion of a string into a sorted list (helper). -/
def insertStrAsc (s : String) : List String → List String
  | [] => [s]
  | t :: ts => if s ≤ t then s :: t :: ts else t :: insertStrAsc s ts

/-- Ascending insertion sort on strings (helper: `groupby` sorts its keys). -/
def sortStrsAsc : List String → List String
  | [] => []
  | s :: ss => insertStrAsc s (sortStrsAsc ss)

/-- `frame.columns.to_series().groupby(frame.dtypes).groups`
(src/notebooks/grn.py:194): the distinct dtypes in sorted order, each with
the columns of that dtype in original column order. -/
def dtype_groups {α : Type} (frame : PDF α) : List (String × List (PCol α)) :=
  (sortStrsAsc (dropDuplicates (frame.cols.map (fun c => c.dtype)))).map
    (fun t => (t, frame.cols.filter (fun c => c.dtype == t)))

/-- `duplicate_columns(frame)` (src/notebooks/grn.py:190-210): within each
dtype group, a column label `cs[i]` is appended once if some later column
`cs[j]` (`j > i`) has an elementwise-equal value array
(`np.array_equal(ia, ja)`; the model compares `Option` cells, identifying
NaNs, which `np.array_equal` would distinguish — no claim involves
NaN-containing duplicate candidates). -/
def duplicate_columns {α : Type} [DecidableEq α] (frame : PDF α) : List String :=
  let groups := dtype_groups frame
  groups.foldl (fun dups tv =>
    let cs := tv.2
    let lcs := cs.length
    (List.range lcs).foldl (fun dups i =>
      let ia := (cs.getD i ⟨"", "", []⟩).values
      if (cs.drop (i + 1)).any (fun cj => decide (cj.values = ia)) then
        dups ++ [(cs.getD i ⟨"", "", []⟩).name]
      else dups) dups) []

/-- `get_duplicate_columns(df)` (src/notebooks/grn.py:213-235): a verbatim
duplicate of `duplicate_columns` under another name. -/
def get_duplicate_columns {α : Type} [DecidableEq α] (df : PDF α) : List String :=
  let groups := dtype_groups df
  groups.foldl (fun dups tv =>
    let cs := tv.2
    let lcs := cs.length
    (List.range lcs).foldl (fun dups i =>
      let ia := (cs.getD i ⟨"", "", []⟩).values
      if (cs.drop (i + 1)).any (fun cj => decide (cj.values = ia)) then
        dups ++ [(cs.getD i ⟨"", "", []⟩).name]
      else dups) dups) []

/-- `find_constant_features(data)` (src/notebooks/grn.py:178-187): the
labels of columns with fewer than two distinct values. -/
def find_constant_features {α : Type} [DecidableEq α] (data : PDF α) : List String :=
  data.cols.foldl (fun const_features column =>
    if (dropDuplicates column.values).length < 2 then
      const_features ++ [column.name]
    else const_features) []

/-- Descending insertion by percentage (helper for `get_df_missing_columns`:
`sort_values(ascending=False)`). -/
def insertByPercDesc (p : String × Rat) : List (String × Rat) → List (String × Rat)
  | [] => [p]
  | q :: qs => if q.2 < p.2 then p :: q :: qs else q :: insertByPercDesc p qs

/-- Descending insertion sort by percentage (helper). -/
def sortByPercDesc : List (String × Rat) → List (String × Rat)
  | [] => []
  | p :: ps => insertByPercDesc p (sortByPercDesc ps)

/-- Ascending lexicographic insertion on `(% missing, feature_type)`
(helper for the final `sort_values(['% missing_values', 'feature_type'])`;
rows are `(label, feature_type, % missing)`). -/
def insertByPercType (p : String × String × Rat) :
    List (String × String × Rat) → List (String × String × Rat)
  | [] => [p]
  | q :: qs =>
      if p.2.2 < q.2.2 ∨ (p.2.2 = q.2.2 ∧ p.2.1 ≤ q.2.1) then p :: q :: qs
      else q :: insertByPercType p qs

/-- Ascending lexicographic insertion sort (helper). -/
def sortByPercType : List (String × String × Rat) →
    List (String × String × Rat)
  | [] => []
  | p :: ps => insertByPercType p (sortByPercType ps)

/-- `get_df_missing_columns(data)` (src/notebooks/grn.py:152-175): per-column
missing-value percentage sorted descending, inner-merged on the column label
with the per-column dtypes, then `sort_values(['% missing_values',
'feature_type'], inplace=True)` — in place on the *local* merged frame.
Result rows: `(label, feature_type, % missing_values)`. -/
def get_df_missing_columns {α : Type} (data : PDF α) :
    List (String × String × Rat) :=
  let df_missing_values :=
    sortByPercDesc (data.cols.map (fun c =>
      (c.name,
        ((c.values.countP (fun v => v.isNone) : Nat) : Rat)
          / ((nrows data : Nat) : Rat) * 100)))
  let df_feature_type := data.cols.map (fun c => (c.name, c.dtype))
  let missing_cols_df := df_feature_type.flatMap (fun ft =>
    (df_missing_values.filter (fun mv => mv.1 == ft.1)).map
      (fun mv => (ft.1, ft.2, mv.2)))
  sortByPercType missing_cols_df

/-- Ascending insertion of an optional value (helper for the sorted classes
of `LabelEncoder`; NaN sorts last, as in `np.sort`). -/
def insertOptAsc {α : Type} [LinearOrder α] (v : Option α) :
    List (Option α) → List (Option α)
  | [] => [v]
  | w :: ws =>
      match v, w with
      | none, none => none :: none :: ws
      | none, some y => some y :: insertOptAsc none ws
      | some x, none => some x :: none :: ws
      | some x, some y =>
          if x ≤ y then some x :: some y :: ws
          else some y :: insertOptAsc (some x) ws

/-- Ascending insertion sort of optional values (helper). -/
def sortOptAsc {α : Type} [LinearOrder α] : List (Option α) → List (Option α)
  | [] => []
  | v :: vs => insertOptAsc v (sortOptAsc vs)

/-- `col_encoding(df, column)` (src/notebooks/grn.py:260-286):
`LabelEncoder().fit_transform` labels the column's values by the sorted
order of its distinct values, and `OneHotEncoder(sparse=False)` turns the
labels into indicator rows, one per dataframe row, one slot per class.
A missing column label is pandas' `KeyError`. -/
def col_encoding {α : Type} [DecidableEq α] [LinearOrder α]
    (df : PDF α) (column : String) : Except String (List (List Rat)) :=
  match df.cols.find? (fun c => c.name == column) with
  | none => Except.error ("KeyError: " ++ column)
  | some c =>
      let classes := sortOptAsc (dropDuplicates c.values)
      Except.ok (c.values.map (fun v =>
        classes.map (fun cl => if v = cl then (1 : Rat) else 0)))

/-- `one_hot_df(df, cat_col_list)` (src/notebooks/grn.py:289-317): one-hot
encode each listed categorical column and concatenate the encodings along
the column axis; generated column labels are `col + ' ' + str(i)`.  The
result is the list of columns of the hot frame. -/
def one_hot_df {α : Type} [DecidableEq α] [LinearOrder α]
    (df : PDF α) (cat_col_list : List String) :
    Except String (List (String × List Rat)) :=
  cat_col_list.foldlM (fun df_hot col => do
    let encoded_matrix ← col_encoding df col
    let width := (encoded_matrix.headD []).length
    let df_ := (List.range width).map (fun i =>
      (col ++ " " ++ toString i, encoded_matrix.map (fun row => row.getD i 0)))
    return df_hot ++ df_) []

/- ----------------------------------------------------------------
`download_and_preprocess_data` (src/notebooks/grn.py:404-482), modelled at
the I/O boundary.
---------------------------------------------------------------- -/

/-- A boundary-facing effect of `download_and_preprocess_data`: a shell
command (`os.system`), a CSV/text read (`pd.read_csv`), or a CSV write
(`DataFrame.to_csv`, with its `index` flag). -/
inductive Effect
  | shell (cmd : String)
  | readCsv (path : String)
  | toCsv (path : String) (index : Bool)
deriving DecidableEq

/-- Whether an effect is a `to_csv` write. -/
def Effect.isToCsv : Effect → Bool
  | Effect.toCsv _ _ => true
  | _ => false

/-- `download_and_preprocess_data(org, data_dir, variance_ratio, output_path)`
(src/notebooks/grn.py:404-482), at the I/O boundary.  With `data_dir = None`
the dataset is downloaded (`wget`) and unzipped via `os.system`, then read;
otherwise the local file is read.  The in-memory pipeline (column rename
inside `try/except`, median imputation, standard scaling, PCA projection and
reconstruction, lowercasing) is floating-point numeric work that creates no
effect and is not modelled; the function ends with
`denoised_df.to_csv(output_path + 'denoised_' + org + '.csv', index=False)`
and no `return` statement, i.e. it returns `None` (first component). -/
def download_and_preprocess_data (org : String) (data_dir : Option String)
    ( variance_ratio : Rat) (output_path : String) : Option Unit × List Effect :=
  match data_dir with
  | none =>
      let download_cmd :=
        "wget http://colombos.net/cws_data/compendium_data/"
          ++ org ++ "_compendium_data.zip"
      let unzip_cmd := "unzip " ++ org ++ "_compendium_data.zip"
      (none,
        [Effect.shell download_cmd, Effect.shell unzip_cmd,
         Effect.readCsv ("colombos_" ++ org ++ "_exprdata_20151029.txt"),
         Effect.toCsv (output_path ++ "denoised_" ++ org ++ ".csv") false])
  | some d =>
      (none,
        [Effect.readCsv d,
         Effect.toCsv (output_path ++ "denoised_" ++ org ++ ".csv") false])

/- ----------------------------------------------------------------
State-passing views of the dataframe-consuming utilities.

Each `*_call` returns the utility's result together with the contents of
the argument frame after the call.  In the source, the only
`inplace=True` operations are `gene_profiles.drop_duplicates` in
`get_gene_data` (line 135) and `missing_cols_df.sort_values` in
`get_df_missing_columns` (line 172), both applied to frames created inside
the function body; every other pandas call either only reads the argument
or returns a fresh frame, so the argument's post-call contents are its
pre-call contents.
---------------------------------------------------------------- -/

/-- `get_gene_data` with the argument frame's post-call contents. -/
def get_gene_data_call {α : Type} [DecidableEq α] [Inhabited α]
    (data : DF α) (gene_name_column : String) (test_gene_list : List α) :
    DF α × DF α :=
  (get_gene_data data gene_name_column test_gene_list, data)

/-- `get_df_missing_columns` with the argument frame's post-call contents. -/
def get_df_missing_columns_call {α : Type} (data : PDF α) :
    List (String × String × Rat) × PDF α :=
  (get_df_missing_columns data, data)

/-- `find_constant_features` with the argument frame's post-call contents. -/
def find_constant_features_call {α : Type} [DecidableEq α] (data : PDF α) :
    List String × PDF α :=
  (find_constant_features data, data)

/-- `duplicate_columns` with the argument frame's post-call contents. -/
def duplicate_columns_call {α : Type} [DecidableEq α] (frame : PDF α) :
    List String × PDF α :=
  (duplicate_columns frame, frame)

/-- `one_hot_df` with the argument frame's post-call contents. -/
def one_hot_df_call {α : Type} [DecidableEq α] [LinearOrder α]
    (df : PDF α) (cat_col_list : List String) :
    Except String (List (String × List Rat)) × PDF α :=
  (one_hot_df df cat_col_list, df)

/- ----------------------------------------------------------------
Helper lemmas.
---------------------------------------------------------------- -/
theorem mem_dropDupsAux {α : Type} [DecidableEq α] (l : List α) :
    ∀ (seen : List α) (a : α), a ∈ dropDupsAux l seen ↔ a ∈ l ∧ a ∉ seen := by
  induction l with
  | nil => intro seen a; simp [dropDupsAux]
  | cons x xs ih =>
    intro seen a
    by_cases hx : x ∈ seen
    · rw [dropDupsAux, if_pos hx, ih]
      simp only [List.mem_cons]
      constructor
      · rintro ⟨ha, hs⟩; exact ⟨Or.inr ha, hs⟩
      · rintro ⟨ha | ha, hs⟩
        · exact absurd (ha ▸ hx) hs
        · exact ⟨ha, hs⟩
    · rw [dropDupsAux, if_neg hx]
      simp only [List.mem_cons, ih]
      constructor
      · rintro (rfl | ⟨ha, hs⟩)
        · exact ⟨Or.inl rfl, hx⟩
        · refine ⟨Or.inr ha, fun hmem => hs (Or.inr hmem)⟩
      · rintro ⟨rfl | ha, hs⟩
        · exact Or.inl rfl
        · by_cases hax : a = x
          · exact Or.inl hax
          · exact Or.inr ⟨ha, by simp [hax, hs]⟩

theorem mem_dropDuplicates {α : Type} [DecidableEq α] (l : List α) (a : α) :
    a ∈ dropDuplicates l ↔ a ∈ l := by
  simp [dropDuplicates, mem_dropDupsAux]

theorem nodup_dropDupsAux {α : Type} [DecidableEq α] (l : List α) :
    ∀ seen : List α, (dropDupsAux l seen).Nodup := by
  induction l with
  | nil => intro seen; simp [dropDupsAux]
  | cons x xs ih =>
    intro seen
    by_cases hx : x ∈ seen
    · rw [dropDupsAux, if_pos hx]; exact ih seen
    · rw [dropDupsAux, if_neg hx]
      refine List.Nodup.cons ?_ (ih (x :: seen))
      intro hmem
      have := (mem_dropDupsAux xs (x :: seen) x).mp hmem
      exact this.2 (List.mem_cons_self x seen)

theorem nodup_dropDuplicates {α : Type} [DecidableEq α] (l : List α) :
    (dropDuplicates l).Nodup :=
  nodup_dropDupsAux l []

theorem mem_insertByCount (p q : String × Nat) (l : List (String × Nat)) :
    q ∈ insertByCount p l ↔ q = p ∨ q ∈ l := by
  induction l with
  | nil => simp [insertByCount]
  | cons r rs ih =>
    rw [insertByCount]
    by_cases h : r.2 < p.2
    · simp [h]
    · simp only [if_neg h, List.mem_cons, ih]
      tauto

theorem mem_sortByCountDesc (q : String × Nat) (l : List (String × Nat)) :
    q ∈ sortByCountDesc l ↔ q ∈ l := by
  induction l with
  | nil => simp [sortByCountDesc]
  | cons p ps ih => rw [sortByCountDesc, mem_insertByCount, ih]; simp

theorem mem_value_counts (vals : List String) (v : String) (c : Nat) :
    (v, c) ∈ value_counts vals ↔ v ∈ vals ∧ c = vals.count v := by
  rw [value_counts, mem_sortByCountDesc, List.mem_map]
  constructor
  · rintro ⟨u, hu, heq⟩
    simp only [Prod.mk.injEq] at heq
    obtain ⟨rfl, rfl⟩ := heq
    exact ⟨(mem_dropDuplicates vals u).mp hu, rfl⟩
  · rintro ⟨hv, rfl⟩
    exact ⟨v, (mem_dropDuplicates vals v).mpr hv, rfl⟩

theorem mem_gene_profiles_foldl {α : Type} [DecidableEq α] [Inhabited α]
    (data : DF α) (c : String) (gl : List α) (col : List α)
    (init : List (List α)) (r : List α) :
    r ∈ col.foldl
        (fun acc gene =>
          if gene ∈ gl then
            acc ++ data.rows.filter (fun row => getCell data c row == gene)
          else acc) init ↔
      r ∈ init ∨ ∃ g ∈ col, g ∈ gl ∧ r ∈ data.rows ∧ getCell data c r = g := by
  induction col generalizing init with
  | nil => simp
  | cons g gs ih =>
    rw [List.foldl_cons, ih]
    by_cases hg : g ∈ gl
    · rw [if_pos hg]
      simp only [List.mem_append, List.mem_filter, beq_iff_eq, List.mem_cons]
      constructor
      · rintro ((hr | ⟨hrow, hcell⟩) | ⟨g2, hg2, hgl2, hrow2, hcell2⟩)
        · exact Or.inl hr
        · exact Or.inr ⟨g, Or.inl rfl, hg, hrow, hcell⟩
        · exact Or.inr ⟨g2, Or.inr hg2, hgl2, hrow2, hcell2⟩
      · rintro (hr | ⟨g2, (rfl | hg2), hgl2, hrow2, hcell2⟩)
        · exact Or.inl (Or.inl hr)
        · exact Or.inl (Or.inr ⟨hrow2, hcell2⟩)
        · exact Or.inr ⟨g2, hg2, hgl2, hrow2, hcell2⟩
    · rw [if_neg hg]
      simp only [List.mem_cons]
      constructor
      · rintro (hr | ⟨g2, hg2, hgl2, hrow2, hcell2⟩)
        · exact Or.inl hr
        · exact Or.inr ⟨g2, Or.inr hg2, hgl2, hrow2, hcell2⟩
      · rintro (hr | ⟨g2, (rfl | hg2), hgl2, hrow2, hcell2⟩)
        · exact Or.inl hr
        · exact absurd hgl2 hg
        · exact Or.inr ⟨g2, hg2, hgl2, hrow2, hcell2⟩

theorem get_gene_data_rows_mem {α : Type} [DecidableEq α] [Inhabited α]
    (data : DF α) (c : String) (gl : List α) (r : List α) :
    r ∈ (get_gene_data data c gl).rows ↔
      r ∈ data.rows ∧ getCell data c r ∈ gl := by
  show r ∈ dropDuplicates _ ↔ _
  rw [mem_dropDuplicates, mem_gene_profiles_foldl]
  simp only [List.not_mem_nil, false_or]
  constructor
  · rintro ⟨g, hgcol, hggl, hrow, hcell⟩
    exact ⟨hrow, hcell ▸ hggl⟩
  · rintro ⟨hrow, hcell⟩
    exact ⟨getCell data c r, List.mem_map_of_mem _ hrow, hcell, hrow, rfl⟩

theorem get_hi_GOs_fst_getD (GO_gene_set : DF String)
    (h : GO_gene_set.rows.length > 1) :
    (get_hi_GOs GO_gene_set).1.getD [] =
      ((value_counts (getColumn GO_gene_set "GO_ID")).filter
        (fun p => p.2 > GO_gene_set.rows.length / 10)).map Prod.fst := by
  rw [get_hi_GOs]
  simp only [if_pos h]
  set hi := ((value_counts (getColumn GO_gene_set "GO_ID")).filter
    (fun p => p.2 > GO_gene_set.rows.length / 10)).map Prod.fst with hhi
  by_cases hlen : hi.length > 0
  · rw [if_pos hlen]; rfl
  · rw [if_neg hlen]
    have : hi = [] := List.length_eq_zero.mp (Nat.eq_zero_of_not_pos hlen)
    rw [this]
    rfl

/- ----------------------------------------------------------------
Claims.
---------------------------------------------------------------- -/

/-- C5: for every dataframe, column name and gene list, `get_gene_data`
returns exactly the rows of the dataframe whose value in the named column
is a member of the gene list, with exact duplicate rows removed; in
particular, when no value of that column is in the gene list it returns an
empty dataframe. -/
theorem get_gene_data_filters_rows {α : Type} [DecidableEq α] [Inhabited α]
    (data : DF α) (gene_name_column : String) (test_gene_list : List α) :
    (∀ r, r ∈ (get_gene_data data gene_name_column test_gene_list).rows ↔
        r ∈ data.rows ∧ getCell data gene_name_column r ∈ test_gene_list) ∧
    (get_gene_data data gene_name_column test_gene_list).rows.Nodup ∧
    ((get_gene_data data gene_name_column test_gene_list).rows = [] ↔
        ∀ r ∈ data.rows, getCell data gene_name_column r ∉ test_gene_list) := by
  refine ⟨get_gene_data_rows_mem data gene_name_column test_gene_list,
    nodup_dropDuplicates _, ?_⟩
  rw [List.eq_nil_iff_forall_not_mem]
  constructor
  · intro hempty r hrow hmem
    exact hempty r ((get_gene_data_rows_mem data gene_name_column
      test_gene_list r).mpr ⟨hrow, hmem⟩)
  · intro hnone r hr
    obtain ⟨hrow, hmem⟩ :=
      (get_gene_data_rows_mem data gene_name_column test_gene_list r).mp hr
    exact hnone r hrow hmem

/-- C6: `test_missing_data(df, fname)` raises an `AssertionError` with
message `fname + ' contains missing data'` if and only if the dataframe
contains at least one null entry; with no null entries it returns `None`
without raising. -/
theorem test_missing_data_raises_iff_null {α : Type}
    (df : DF (Option α)) (fname : String) :
    (test_missing_data df fname =
        Except.error (fname ++ " contains missing data") ↔
      ∃ r ∈ df.rows, none ∈ r) ∧
    (test_missing_data df fname = Except.ok () ↔
      ∀ r ∈ df.rows, none ∉ r) := by
  have hcond : (df.rows.all (fun r => r.all (fun x => x.isSome)) = true) ↔
      ∀ r ∈ df.rows, none ∉ r := by
    simp only [List.all_eq_true]
    constructor
    · intro hall r hr hnone
      have := hall r hr none hnone
      simp at this
    · intro hall r hr x hx
      cases x with
      | none => exact absurd hx (hall r hr)
      | some v => rfl
  by_cases hall : df.rows.all (fun r => r.all (fun x => x.isSome)) = true
  · rw [test_missing_data, if_pos hall]
    refine ⟨⟨fun h => Except.noConfusion h, fun hex => ?_⟩,
      fun _ => hcond.mp hall, fun _ => rfl⟩
    obtain ⟨r, hr, hnone⟩ := hex
    exact absurd hnone (hcond.mp hall r hr)
  · rw [test_missing_data, if_neg hall]
    have hex : ∃ r ∈ df.rows, none ∈ r := by
      rw [hcond] at hall
      push_neg at hall
      obtain ⟨r, hr, hnone⟩ := hall
      exact ⟨r, hr, hnone⟩
    exact ⟨⟨fun _ => hex, fun _ => rfl⟩,
      fun h => Except.noConfusion h,
      fun hforall => absurd (hcond.mpr hforall) hall⟩

/-- C7: every dataframe-consuming utility leaves the dataframe passed to it
unchanged: after calling `get_gene_data`, `get_df_missing_columns`,
`find_constant_features`, `duplicate_columns`, or `one_hot_df`, the argument
frame holds exactly the rows, columns, and values it held before the call
(the source's only `inplace=True` operations act on locally created
frames). -/
theorem dataframe_arguments_unchanged {α : Type} [DecidableEq α]
    [LinearOrder α] [Inhabited α] (data : DF α) (pdata : PDF α)
    (gene_name_column : String) (test_gene_list : List α)
    (cat_col_list : List String) :
    (get_gene_data_call data gene_name_column test_gene_list).2 = data ∧
    (get_df_missing_columns_call pdata).2 = pdata ∧
    (find_constant_features_call pdata).2 = pdata ∧
    (duplicate_columns_call pdata).2 = pdata ∧
    (one_hot_df_call pdata cat_col_list).2 = pdata :=
  ⟨rfl, rfl, rfl, rfl, rfl⟩

/-- C8: `download_and_preprocess_data` writes the denoised table as a CSV to
`output_path + 'denoised_' + org + '.csv'`, without the dataframe index, and
returns `None`; that write is the only file the function itself outputs
(its other effects are the shell download/unzip and the reads). -/
theorem download_and_preprocess_data_output (org : String)
    (data_dir : Option String) ( variance_ratio : Rat) (output_path : String) :
    (download_and_preprocess_data org data_dir variance_ratio output_path).1 =
      none ∧
    ((download_and_preprocess_data org data_dir
        variance_ratio output_path).2.filter Effect.isToCsv) =
      [Effect.toCsv (output_path ++ "denoised_" ++ org ++ ".csv") false] := by
  cases data_dir <;> exact ⟨rfl, rfl⟩

/-- C9: `duplicate_columns` and `get_duplicate_columns` return the same list
of duplicate column labels on every dataframe: the two functions are
extensionally equal (their bodies are verbatim copies). -/
theorem duplicate_columns_eq_get_duplicate_columns {α : Type} [DecidableEq α]
    (df : PDF α) : duplicate_columns df = get_duplicate_columns df := rfl

/-- C10: the result of `get_GO_gene_set` does not depend on its
`gene_ontology_data` argument: for any two values of that argument and the
same test gene list (and the same on-disk annotation data, which the
function reloads), the returned GO gene set is identical. -/
theorem get_GO_gene_set_ignores_argument (disk : String → DF String)
    (gene_ontology_data₁ gene_ontology_data₂ : DF String)
    (test_gene_list : List String) :
    get_GO_gene_set disk gene_ontology_data₁ test_gene_list =
      get_GO_gene_set disk gene_ontology_data₂ test_gene_list := rfl

/-- C2: for every filtered GO gene set with more than one row, `get_hi_GOs`
returns exactly those GO IDs whose occurrence count in the set is strictly
greater than `int(0.10 * number of rows)` (floor division of the row count
by 10); only those survive into the p-value step. -/
theorem get_hi_GOs_exactly_above_threshold (GO_gene_set : DF String)
    (h : GO_gene_set.rows.length > 1) (go : String) :
    go ∈ (get_hi_GOs GO_gene_set).1.getD [] ↔
      (getColumn GO_gene_set "GO_ID").count go >
        GO_gene_set.rows.length / 10 := by
  rw [get_hi_GOs_fst_getD GO_gene_set h, List.mem_map]
  constructor
  · rintro ⟨⟨v, c⟩, hq, rfl⟩
    rw [List.mem_filter] at hq
    obtain ⟨hvc, hthr⟩ := hq
    obtain ⟨hv, rfl⟩ := (mem_value_counts _ v c).mp hvc
    simpa using hthr
  · intro hcount
    have hmem : go ∈ getColumn GO_gene_set "GO_ID" :=
      List.count_pos_iff.mp (lt_of_le_of_lt (Nat.zero_le _) hcount)
    refine ⟨(go, (getColumn GO_gene_set "GO_ID").count go), ?_, rfl⟩
    rw [List.mem_filter]
    exact ⟨(mem_value_counts _ go _).mpr ⟨hmem, rfl⟩, by simpa using hcount⟩

/-- Witness for C2 at a concrete input: a two-row gene set whose single GO
ID `GO:1` occurs twice, above the threshold `2 / 10 = 0`. -/
theorem get_hi_GOs_exactly_above_threshold_witness :
    "GO:1" ∈ (get_hi_GOs exGod).1.getD [] :=
  (get_hi_GOs_exactly_above_threshold exGod (by decide) "GO:1").mpr (by decide)

/-- C4: when no enriched GO IDs exist — the gene set has at most one row, or
no GO ID's count exceeds the threshold — `get_hi_GOs` prints
`No enriched functions found.` and returns `None` (no typed failure); and
when the overrepresented-GO-ID argument is `None` or empty,
`get_hyper_test_p_value` prints `Enrichment test did not run.` and returns
`None`. -/
theorem no_enrichment_prints_and_returns_none
    (GO_gene_set gene_ontology_data : DF String) (garbage : Nat → Nat → Rat)
    (h : GO_gene_set.rows.length ≤ 1 ∨
      ∀ go, (getColumn GO_gene_set "GO_ID").count go ≤
        GO_gene_set.rows.length / 10) :
    get_hi_GOs GO_gene_set = (none, ["No enriched functions found."]) ∧
    get_hyper_test_p_value garbage gene_ontology_data GO_gene_set none =
      (none, ["Enrichment test did not run."]) ∧
    get_hyper_test_p_value garbage gene_ontology_data GO_gene_set (some []) =
      (none, ["Enrichment test did not run."]) := by
  refine ⟨?_, rfl, rfl⟩
  rcases h with hle | hcount
  · rw [get_hi_GOs, if_neg (by omega)]
  · by_cases hlen : GO_gene_set.rows.length > 1
    · have hfilter : (value_counts (getColumn GO_gene_set "GO_ID")).filter
          (fun p => p.2 > GO_gene_set.rows.length / 10) = [] := by
        rw [List.filter_eq_nil_iff]
        rintro ⟨v, c⟩ hvc
        obtain ⟨hv, rfl⟩ := (mem_value_counts _ v c).mp hvc
        simpa using Nat.not_lt.mpr (hcount v)
      rw [get_hi_GOs]
      simp only [if_pos hlen, hfilter]
      rfl
    · rw [get_hi_GOs, if_neg hlen]

/-- Witness for C4 at a concrete input: a one-row gene set (at most one
row). -/
theorem no_enrichment_prints_and_returns_none_witness :
    get_hi_GOs exOneRow = (none, ["No enriched functions found."]) :=
  (no_enrichment_prints_and_returns_none exOneRow exGod (fun _ _ => 0)
    (Or.inl (by decide))).1

/-- C3: for a non-empty overrepresented-GO-ID list (whose IDs occur in the
gene set and the annotation set, as the pipeline guarantees), the
significance cut in `get_hyper_test_p_value` applies no multiple-comparison
correction: it keeps exactly the GO IDs whose computed p-value is strictly
below `0.05`, and the returned summary is the inner merge on the `GO_ID`
column of those significant GO IDs (with their p-values) and the filtered
GO gene set. -/
theorem hyper_test_significance_cut_and_merge (garbage : Nat → Nat → Rat)
    (gene_ontology_data GO_gene_set : DF String) (ids : List String)
    (hne : ids ≠ [])
    (hpresent : ∀ go ∈ ids, go ∈ getColumn GO_gene_set "GO_ID" ∧
      go ∈ getColumn gene_ontology_data "GO_ID") :
    (get_hyper_test_p_value garbage gene_ontology_data GO_gene_set
        (some ids)).1 =
      some (inner_merge (significance_cut ids
        (code_p_vals garbage gene_ontology_data GO_gene_set ids))
        GO_gene_set) ∧
    (∀ go p, (go, p) ∈ significance_cut ids
        (code_p_vals garbage gene_ontology_data GO_gene_set ids) ↔
      (go, p) ∈ ids.zip
          (code_p_vals garbage gene_ontology_data GO_gene_set ids) ∧
        p < (0.05 : Rat)) ∧
    (∀ go p r, (go, p, r) ∈ inner_merge (significance_cut ids
        (code_p_vals garbage gene_ontology_data GO_gene_set ids))
        GO_gene_set ↔
      (go, p) ∈ significance_cut ids
          (code_p_vals garbage gene_ontology_data GO_gene_set ids) ∧
        r ∈ GO_gene_set.rows ∧ getCell GO_gene_set "GO_ID" r = go) := by
  refine ⟨?_, ?_, ?_⟩
  · have hpos : ids.length > 0 := List.length_pos.mpr hne
    rw [get_hyper_test_p_value]
    simp only [if_pos hpos]
  · intro go p
    rw [significance_cut, List.mem_filter]
    simp
  · intro go p r
    rw [inner_merge, List.mem_flatMap]
    constructor
    · rintro ⟨⟨g1, g2⟩, hgp, hmem⟩
      rw [List.mem_map] at hmem
      obtain ⟨row, hrow, heq⟩ := hmem
      simp only [Prod.mk.injEq] at heq
      obtain ⟨rfl, rfl, rfl⟩ := heq
      rw [List.mem_filter, beq_iff_eq] at hrow
      exact ⟨hgp, hrow.1, hrow.2⟩
    · rintro ⟨hsig, hrow, hcell⟩
      exact ⟨(go, p), hsig, List.mem_map.mpr
        ⟨r, List.mem_filter.mpr ⟨hrow, by simp [hcell]⟩, rfl⟩⟩

/-- Witness for C3 at a concrete input: the two-row gene set and annotation
set with the single overrepresented ID `GO:1`. -/
theorem hyper_test_significance_cut_and_merge_witness :
    (get_hyper_test_p_value (fun _ _ => 0) exGod exGod (some ["GO:1"])).1 =
      some (inner_merge (significance_cut ["GO:1"]
        (code_p_vals (fun _ _ => 0) exGod exGod ["GO:1"])) exGod) :=
  (hyper_test_significance_cut_and_merge (fun _ _ => 0) exGod exGod ["GO:1"]
    (by decide) (by decide)).1

/-- C1 (code bug, src/notebooks/grn.py:607-617): the claim says each listed
GO ID gets the hypergeometric upper-tail p-value, the sum of PMF values over
draw counts `k` from `w` to `n` — and the source's own comments agree — but
the code sums the *uninitialized* `np.empty(n - w + 1)` buffer
`hypergeom_pmfs` and never uses the computed `pmfs` array.  At the concrete
failing input (two-row annotation set = gene set, both rows `GO:1`, so
`w = w_genome = n = M = 2`): a zeroed buffer gives p-value `0`, the claimed
upper-tail p-value is `1`, and for an arbitrary buffer the code's p-value is
exactly the buffer contents, independent of the hypergeometric PMF. -/
theorem hyper_test_p_value_sums_uninitialized_buffer :
    code_p_vals (fun _ _ => (0 : Rat)) exGod exGod ["GO:1"] = [0] ∧
    hypergeom_upper_tail 2 2 2 2 = 1 ∧
    (0 : Rat) ≠ 1 ∧
    (∀ garbage : Nat → Nat → Rat,
      code_p_vals garbage exGod exGod ["GO:1"] = [garbage 0 0]) := by
  refine ⟨?_, ?_, by norm_num, fun garbage => ?_⟩
  · rw [show code_p_vals (fun _ _ => (0 : Rat)) exGod exGod ["GO:1"] =
      [(0 : Rat) + 0] from rfl]
    norm_num
  · rw [hypergeom_upper_tail, show (2 : Nat) - 2 + 1 = 1 from rfl,
      show List.range' 2 1 = [2] from rfl]
    simp only [List.map_cons, List.map_nil, List.sum_cons, List.sum_nil,
      add_zero]
    rw [hypergeom_pmf]
    norm_num
  · rw [show code_p_vals garbage exGod exGod ["GO:1"] =
      [garbage 0 0 + 0] from rfl]
    rw [add_zero]
